import Mathlib

/-!
Shallow embedding of the desktop local-service supervisor
(`apps/desktop/src-tauri/src/{main,commands,server,tunnel}.rs`).

Modelling choices:
* A filesystem path is its list of components (`FPath`); the filesystem is an
  existence predicate `Fs : FPath → Bool` (the Rust code only ever calls
  `Path::exists`).  `PathBuf::parent` / `PathBuf::pop` become `parentDir` /
  `List.dropLast`; `Path::display` renders components joined by `/`.
* The outcome of each OS call that can fail (`Command::spawn`, `Child::kill`)
  is passed in as an explicit `Except String _` argument; every OS call the
  code actually issues is recorded in a returned `List OsEffect` trace, so
  "no second process is spawned" is "the trace holds no `spawn`".
* The Tauri-managed slots `ServerState` / `TunnelState`
  (`Mutex<Option<Handle>>`, all commands run under the lock) become explicit
  `Option` state threaded through each command, which returns
  (result, new slot contents, OS-effect trace).
* `tunnel::TunnelHandle.url` is the snapshot of the
  `Arc<Mutex<Option<String>>>` cell; `tunnel::start` creates it holding
  `none` and no code in the source ever writes to it (the spawned background
  task only sleeps).
-/

/-- A filesystem path, as its list of components from the root. -/
abbrev FPath : Type := List String

/-- The filesystem state: which paths exist (the code only calls `exists()`). -/
abbrev Fs : Type := FPath → Bool

/-- `PathBuf::parent` / a successful `PathBuf::pop`: drop the last component;
the root has no parent. -/
def parentDir (p : FPath) : Option FPath :=
  match p with
  | [] => none
  | _ :: _ => some p.dropLast

/-- `Path::display` / `to_string_lossy`: components joined by a separator. -/
def renderPath (p : FPath) : String :=
  String.intercalate "/" p

/-- An OS call issued by the supervisor: process creation
(`Command::spawn`, with working directory, program, arguments and extra
environment) or forceful termination (`Child::kill`). -/
inductive OsEffect : Type where
  | spawn (cwd : Option FPath) (program : String) (args : List String)
      (envs : List (String × String))
  | kill (pid : Nat)
deriving DecidableEq, Repr

/-- Environment inputs read by `server::is_development_mode`:
whether `TAURI_DEV` / `DEBUG` are set and whether the current executable's
file name has an extension. -/
structure Env : Type where
  tauriDev : Bool
  debugVar : Bool
  exeHasExtension : Bool
deriving DecidableEq, Repr

/-- The ambient world of one command invocation: filesystem state, the
running executable's path (`std::env::current_exe`), the working directory
(`std::env::current_dir`) and the environment variables. -/
structure World : Type where
  fs : Fs
  exe : FPath
  cwd : FPath
  env : Env

namespace server

/-- `server::ServerHandle`: the spawned child (by pid) and the port it was
started on. -/
structure ServerHandle : Type where
  child : Nat
  port : Nat
deriving DecidableEq, Repr

/-- The loop body of `server::get_server_path`: up to `fuel` levels starting
from `current`, check `current/src-tauri` and, when that directory exists,
`current/src-tauri/resources/server/index.js`; then
`current/resources/server/index.js`; then step to the parent (breaking at the
root).  Returns the first existing candidate, `none` when the walk ends. -/
def gspLoop (fs : Fs) : Nat → FPath → Option FPath
  | 0, _ => none
  | fuel + 1, current =>
    let srcTauri := current ++ ["src-tauri"]
    if fs srcTauri then
      let sp1 := srcTauri ++ ["resources", "server", "index.js"]
      if fs sp1 then some sp1
      else
        let sp2 := current ++ ["resources", "server", "index.js"]
        if fs sp2 then some sp2
        else
          match parentDir current with
          | some p => gspLoop fs fuel p
          | none => none
    else
      let sp2 := current ++ ["resources", "server", "index.js"]
      if fs sp2 then some sp2
      else
        match parentDir current with
        | some p => gspLoop fs fuel p
        | none => none

/-- `server::get_server_path`: walk up to 5 levels from the executable's
directory looking for the bundled `resources/server/index.js` (directly or
under a `src-tauri` directory); fall back to
`exe_dir/resources/server/index.js`. -/
def get_server_path (fs : Fs) (exe : FPath) : FPath :=
  let exe_dir := exe.dropLast
  match gspLoop fs 5 exe_dir with
  | some p => p
  | none => exe_dir ++ ["resources", "server", "index.js"]

/-- The search loop of `server::find_project_root`: up to `fuel` levels,
check `path/package.json`; if absent pop to the parent, breaking when there
is nothing left to pop. -/
def fprLoop (fs : Fs) : Nat → FPath → Option FPath
  | 0, _ => none
  | fuel + 1, path =>
    if fs (path ++ ["package.json"]) then some path
    else
      match path with
      | [] => none
      | _ :: _ => fprLoop fs fuel path.dropLast

/-- `server::find_project_root`: search up to 10 levels from the current
working directory for `package.json`, then up to 5 levels from the
executable's directory; otherwise fail. -/
def find_project_root (fs : Fs) (cwd exe : FPath) : Except String FPath :=
  match fprLoop fs 10 cwd with
  | some p => Except.ok p
  | none =>
    match fprLoop fs 5 exe.dropLast with
    | some p => Except.ok p
    | none => Except.error "Could not find project root (package.json)"

/-- `server::is_development_mode`: `TAURI_DEV` or `DEBUG` set, or the current
executable has no file extension. -/
def is_development_mode (env : Env) : Bool :=
  (env.tauriDev || env.debugVar) || !env.exeHasExtension

/-- `server::find_node_executable`: hardcoded path to `node.exe`
(rendered, as the code only uses its `to_string_lossy`). -/
def find_node_executable : Except String String :=
  Except.ok "C:\\Program Files\\nodejs\\node.exe"

/-- `server::start_dev_server`: locate the project root, then spawn
`npm run dev` in `<root>/apps/server`.  `sp` is the outcome of the spawn
call. -/
def start_dev_server (w : World) (sp : Except String Nat) (port : Nat) :
    Except String ServerHandle × List OsEffect :=
  match find_project_root w.fs w.cwd w.exe with
  | Except.error e => (Except.error ("Failed to find project root: " ++ e), [])
  | Except.ok project_root =>
    let server_dir := project_root ++ ["apps", "server"]
    match sp with
    | Except.error e =>
      (Except.error ("Failed to start dev server: " ++ e ++ ". Ensure npm is in PATH"),
        [OsEffect.spawn (some server_dir) "npm" ["run", "dev"] []])
    | Except.ok pid =>
      (Except.ok { child := pid, port := port },
        [OsEffect.spawn (some server_dir) "npm" ["run", "dev"] []])

/-- `server::start_production_server`: resolve the bundled script path, fail
if it does not exist, otherwise spawn `node <script>` with `PORT` set.
`sp` is the outcome of the spawn call. -/
def start_production_server (w : World) (sp : Except String Nat) (port : Nat) :
    Except String ServerHandle × List OsEffect :=
  let server_path := get_server_path w.fs w.exe
  if w.fs server_path then
    match find_node_executable with
    | Except.error e => (Except.error e, [])
    | Except.ok node_exe =>
      let server_script := renderPath server_path
      match sp with
      | Except.error e =>
        (Except.error ("Failed to start server: " ++ e ++ " (node: \x27" ++ node_exe ++
            "\x27, script: \x27" ++ server_script ++ "\x27)"),
          [OsEffect.spawn none node_exe [server_script] [("PORT", toString port)]])
      | Except.ok pid =>
        (Except.ok { child := pid, port := port },
          [OsEffect.spawn none node_exe [server_script] [("PORT", toString port)]])
  else
    (Except.error ("Server executable not found at: " ++ renderPath server_path ++
      ". Ensure resources are bundled correctly."), [])

/-- `server::start`: dispatch on development mode. -/
def start (w : World) (sp : Except String Nat) (port : Nat) :
    Except String ServerHandle × List OsEffect :=
  if is_development_mode w.env then start_dev_server w sp port
  else start_production_server w sp port

/-- `server::stop`: kill the child; `k` is the outcome of the kill call. -/
def stop (h : ServerHandle) (k : Except String Unit) :
    Except String Unit × List OsEffect :=
  match k with
  | Except.error e =>
    (Except.error ("Failed to stop server: " ++ e), [OsEffect.kill h.child])
  | Except.ok _ => (Except.ok (), [OsEffect.kill h.child])

end server

namespace tunnel

/-- `tunnel::TunnelHandle`: the spawned child (by pid) and the snapshot of
the shared `Arc<Mutex<Option<String>>>` URL cell. -/
structure TunnelHandle : Type where
  child : Nat
  url : Option String
deriving DecidableEq, Repr

/-- `tunnel::start`: spawn `npx localtunnel --port <port>`; the shared URL
cell starts as `none` and nothing in the source ever writes to it (the
spawned background task only sleeps).  `sp` is the outcome of the spawn
call. -/
def start (port : Nat) (sp : Except String Nat) :
    Except String TunnelHandle × List OsEffect :=
  match sp with
  | Except.error e =>
    (Except.error ("Failed to start tunnel: " ++ e ++ ". Ensure Node.js/npm is in PATH"),
      [OsEffect.spawn none "npx" ["localtunnel", "--port", toString port] []])
  | Except.ok pid =>
    (Except.ok { child := pid, url := none },
      [OsEffect.spawn none "npx" ["localtunnel", "--port", toString port] []])

/-- `tunnel::stop`: kill the child; `k` is the outcome of the kill call. -/
def stop (h : TunnelHandle) (k : Except String Unit) :
    Except String Unit × List OsEffect :=
  match k with
  | Except.error e =>
    (Except.error ("Failed to stop tunnel: " ++ e), [OsEffect.kill h.child])
  | Except.ok _ => (Except.ok (), [OsEffect.kill h.child])

/-- `tunnel::get_url`: read the shared URL cell. -/
def get_url (h : TunnelHandle) : Option String :=
  h.url

end tunnel

namespace commands

/-- `commands::ServerStatus`. -/
structure ServerStatus : Type where
  running : Bool
  port : Nat
deriving DecidableEq, Repr

/-- `commands::TunnelStatus`. -/
structure TunnelStatus : Type where
  running : Bool
  url : Option String
deriving DecidableEq, Repr

/-- `commands::start_server`: under the slot's lock, reject when the slot is
occupied; otherwise run `server::start`, store the handle on success and
return a confirmation naming the port.  Returns
(result, new slot contents, OS-effect trace). -/
def start_server (st : Option server.ServerHandle) (w : World)
    (sp : Except String Nat) (port : Nat) :
    Except String String × Option server.ServerHandle × List OsEffect :=
  if st.isSome then (Except.error "Server is already running", st, [])
  else
    match server.start w sp port with
    | (Except.error e, effs) => (Except.error e, st, effs)
    | (Except.ok handle, effs) =>
      (Except.ok ("Server started on port " ++ toString port), some handle, effs)

/-- `commands::stop_server`: reject when the slot is empty; otherwise take
the handle out of the slot (clearing it) and kill it, surfacing any kill
failure. -/
def stop_server (st : Option server.ServerHandle) (k : Except String Unit) :
    Except String String × Option server.ServerHandle × List OsEffect :=
  match st with
  | none => (Except.error "Server is not running", none, [])
  | some handle =>
    match server.stop handle k with
    | (Except.error e, effs) => (Except.error e, none, effs)
    | (Except.ok _, effs) => (Except.ok "Server stopped", none, effs)

/-- `commands::get_server_status`: pure read of the slot; default port 8787
when empty. -/
def get_server_status (st : Option server.ServerHandle) :
    Except String ServerStatus :=
  Except.ok
    { running := st.isSome
      port := (st.map (fun h => h.port)).getD 8787 }

/-- `commands::start_tunnel`: reject when the slot is occupied; otherwise run
`tunnel::start`, read the URL cell, store the handle, and return the URL on
success or an error when no URL has been observed. -/
def start_tunnel (st : Option tunnel.TunnelHandle) (port : Nat)
    (sp : Except String Nat) :
    Except String String × Option tunnel.TunnelHandle × List OsEffect :=
  if st.isSome then (Except.error "Tunnel is already running", st, [])
  else
    match tunnel.start port sp with
    | (Except.error e, effs) => (Except.error e, st, effs)
    | (Except.ok handle, effs) =>
      match tunnel.get_url handle with
      | some u => (Except.ok u, some handle, effs)
      | none => (Except.error "Tunnel started but URL not available", some handle, effs)

/-- `commands::stop_tunnel`: reject when the slot is empty; otherwise take
the handle out of the slot (clearing it) and kill it, surfacing any kill
failure. -/
def stop_tunnel (st : Option tunnel.TunnelHandle) (k : Except String Unit) :
    Except String String × Option tunnel.TunnelHandle × List OsEffect :=
  match st with
  | none => (Except.error "Tunnel is not running", none, [])
  | some handle =>
    match tunnel.stop handle k with
    | (Except.error e, effs) => (Except.error e, none, effs)
    | (Except.ok _, effs) => (Except.ok "Tunnel stopped", none, effs)

/-- `commands::get_tunnel_status`: pure read of the slot and, when occupied,
of the handle's URL cell. -/
def get_tunnel_status (st : Option tunnel.TunnelHandle) :
    Except String TunnelStatus :=
  Except.ok
    { running := st.isSome
      url :=
        match st with
        | some handle => tunnel.get_url handle
        | none => none }

end commands

/-- The supervisor state after the managed backend child exits on its own:
unchanged.  No exit-watcher exists anywhere in the source — `main.rs`
registers only the seven command handlers, and neither `server.rs` nor
`commands.rs` spawns a task that waits on the child — so a child exit runs
no supervisor code and the slot keeps the stale handle. -/
def slotAfterChildExit (st : Option server.ServerHandle) :
    Option server.ServerHandle :=
  st

/-- `server.gspLoop` instrumented with the list of paths it passes to
`exists()`, branch for branch, to measure how much of the filesystem the
walk touches. -/
def gspLoopProbes (fs : Fs) : Nat → FPath → Option FPath × List FPath
  | 0, _ => (none, [])
  | fuel + 1, current =>
    let srcTauri := current ++ ["src-tauri"]
    if fs srcTauri then
      let sp1 := srcTauri ++ ["resources", "server", "index.js"]
      if fs sp1 then (some sp1, [srcTauri, sp1])
      else
        let sp2 := current ++ ["resources", "server", "index.js"]
        if fs sp2 then (some sp2, [srcTauri, sp1, sp2])
        else
          match parentDir current with
          | some p =>
            let r := gspLoopProbes fs fuel p
            (r.1, srcTauri :: sp1 :: sp2 :: r.2)
          | none => (none, [srcTauri, sp1, sp2])
    else
      let sp2 := current ++ ["resources", "server", "index.js"]
      if fs sp2 then (some sp2, [srcTauri, sp2])
      else
        match parentDir current with
        | some p =>
          let r := gspLoopProbes fs fuel p
          (r.1, srcTauri :: sp2 :: r.2)
        | none => (none, [srcTauri, sp2])

/-- `server.fprLoop` instrumented with the list of paths it passes to
`exists()`. -/
def fprLoopProbes (fs : Fs) : Nat → FPath → Option FPath × List FPath
  | 0, _ => (none, [])
  | fuel + 1, path =>
    let pj := path ++ ["package.json"]
    if fs pj then (some path, [pj])
    else
      match path with
      | [] => (none, [pj])
      | _ :: _ =>
        let r := fprLoopProbes fs fuel path.dropLast
        (r.1, pj :: r.2)

/-- A filesystem on which no path exists. -/
def fsEmpty : Fs := fun _ => false

/-- A production-like environment: no dev variables, packaged `.exe`. -/
def prodEnv : Env := { tauriDev := false, debugVar := false, exeHasExtension := true }

/-- A concrete executable path used in concrete runs. -/
def exePath0 : FPath := ["C:", "app", "side.exe"]

/-- Concrete world: production mode, empty filesystem (no executable in
either layout). -/
def worldNoExe : World :=
  { fs := fsEmpty, exe := exePath0, cwd := [], env := prodEnv }

/-- A filesystem holding exactly the bundled production server script. -/
def fsProd : Fs := fun p => p == ["C:", "app", "resources", "server", "index.js"]

/-- Concrete world: production mode with the bundled script present. -/
def worldProd : World :=
  { fs := fsProd, exe := exePath0, cwd := [], env := prodEnv }

/-- Strings with a fixed left part that is not a prefix of `y` differ
from `y`. -/
theorem append_ne_of_not_pre (a x y : String) (h : ¬ a.data <+: y.data) :
    a ++ x ≠ y := by
  intro he
  apply h
  rw [← he, String.data_append]
  exact ⟨x.data, rfl⟩

/-- `gspLoopProbes` computes the same path as the source's walk. -/
theorem gspLoopProbes_fst (fs : Fs) :
    ∀ (n : Nat) (c : FPath), (gspLoopProbes fs n c).1 = server.gspLoop fs n c := by
  intro n
  induction n with
  | zero => intro c; rfl
  | succ fuel ih =>
    intro c
    simp only [gspLoopProbes, server.gspLoop]
    rcases hpd : parentDir c with _ | p <;>
      by_cases h1 : fs (c ++ ["src-tauri"]) <;>
      by_cases h2 : fs (c ++ ["src-tauri", "resources", "server", "index.js"]) <;>
      by_cases h3 : fs (c ++ ["resources", "server", "index.js"]) <;>
      simp [h1, h2, h3, hpd, ih]

/-- The walk of `server::get_server_path` probes at most three paths per
level for at most `n` levels. -/
theorem gspLoopProbes_length (fs : Fs) :
    ∀ (n : Nat) (c : FPath), (gspLoopProbes fs n c).2.length ≤ 3 * n := by
  intro n
  induction n with
  | zero => intro c; simp [gspLoopProbes]
  | succ fuel ih =>
    intro c
    simp only [gspLoopProbes]
    rcases hpd : parentDir c with _ | p <;>
      by_cases h1 : fs (c ++ ["src-tauri"]) <;>
      by_cases h2 : fs (c ++ ["src-tauri", "resources", "server", "index.js"]) <;>
      by_cases h3 : fs (c ++ ["resources", "server", "index.js"]) <;>
      simp [h1, h2, h3, hpd] <;>
      first
        | omega
        | (have hb := ih p; omega)

/-- `fprLoopProbes` computes the same result as the source's search loop. -/
theorem fprLoopProbes_fst (fs : Fs) :
    ∀ (n : Nat) (c : FPath), (fprLoopProbes fs n c).1 = server.fprLoop fs n c := by
  intro n
  induction n with
  | zero => intro c; rfl
  | succ fuel ih =>
    intro c
    cases c with
    | nil =>
      by_cases h1 : fs ["package.json"] <;>
        simp [fprLoopProbes, server.fprLoop, h1]
    | cons a t =>
      by_cases h1 : fs (a :: (t ++ ["package.json"])) <;>
        simp [fprLoopProbes, server.fprLoop, h1, ih]

/-- The search of `server::find_project_root` probes one path per level for
at most `n` levels. -/
theorem fprLoopProbes_length (fs : Fs) :
    ∀ (n : Nat) (c : FPath), (fprLoopProbes fs n c).2.length ≤ n := by
  intro n
  induction n with
  | zero => intro c; simp [fprLoopProbes]
  | succ fuel ih =>
    intro c
    cases c with
    | nil =>
      by_cases h1 : fs ["package.json"] <;>
        simp [fprLoopProbes, h1]
    | cons a t =>
      by_cases h1 : fs (a :: (t ++ ["package.json"])) <;>
        simp [fprLoopProbes, h1]
      all_goals (have hb := ih (a :: t).dropLast; omega)

/-- Claim C1: a `start` issued while the slot (backend or tunnel) already
holds a running instance returns the AlreadyRunning error, leaves the slot
unchanged (so the slot still holds exactly the one instance the `Option`
type allows), and issues no OS call at all — in particular it spawns no
second child process.  Quantified over every slot state, so this covers
every state reachable by any sequence of start/stop operations. -/
theorem c1_start_on_occupied_slot_rejected
    (sst : Option server.ServerHandle) (tst : Option tunnel.TunnelHandle)
    (w : World) (sp sp2 : Except String Nat) (port port2 : Nat)
    (hs : sst.isSome = true) (ht : tst.isSome = true) :
    commands.start_server sst w sp port
      = (Except.error "Server is already running", sst, [])
    ∧ commands.start_tunnel tst port2 sp2
      = (Except.error "Tunnel is already running", tst, []) := by
  constructor
  · simp [commands.start_server, hs]
  · simp [commands.start_tunnel, ht]

/-- Witness for C1 at concrete occupied slots. -/
theorem c1_start_on_occupied_slot_rejected_witness :
    (some { child := 1, port := 8787 } : Option server.ServerHandle).isSome = true
    ∧ (some { child := 2, url := none } : Option tunnel.TunnelHandle).isSome = true
    ∧ (commands.start_server (some { child := 1, port := 8787 }) worldProd
          (Except.ok 3) 8787
        = (Except.error "Server is already running",
            some { child := 1, port := 8787 }, [])
      ∧ commands.start_tunnel (some { child := 2, url := none }) 3000 (Except.ok 4)
        = (Except.error "Tunnel is already running",
            some { child := 2, url := none }, [])) :=
  ⟨rfl, rfl,
    c1_start_on_occupied_slot_rejected (some { child := 1, port := 8787 })
      (some { child := 2, url := none }) worldProd (Except.ok 3) (Except.ok 4)
      8787 3000 rfl rfl⟩

/-- Claim C2 (divergence of the code from the claim): after the managed
backend child exits on its own, the code has no exit-watcher, so the slot
still holds the stale handle: `get_server_status` keeps reporting
`running = true` with the old port, and a subsequent `start_server` is
rejected with the AlreadyRunning error instead of succeeding. -/
theorem c2_stale_handle_after_child_exit (h : server.ServerHandle) (w : World)
    (sp : Except String Nat) (port : Nat) :
    commands.get_server_status (slotAfterChildExit (some h))
      = Except.ok { running := true, port := h.port }
    ∧ (commands.start_server (slotAfterChildExit (some h)) w sp port).1
      = Except.error "Server is already running" := by
  constructor
  · simp [commands.get_server_status, slotAfterChildExit]
  · simp [commands.start_server, slotAfterChildExit]

/-- Claim C3 counterexample: with the tunnel slot empty and the spawn call
succeeding (pid 7), `start_tunnel` returns an error — the start operation
as a whole fails — rather than succeeding with the URL reported unknown. -/
theorem c3_counterexample :
    (commands.start_tunnel none 3000 (Except.ok 7)).1
      = Except.error "Tunnel started but URL not available" := rfl

/-- Claim C3 as amended: when the tunnel process spawns successfully but no
public URL has been observed, `start_tunnel` reports URL unavailability by
returning the error "Tunnel started but URL not available"; the spawned
process is kept and the slot is populated, but the start operation's result
is that error, not a success. -/
theorem c3_url_unavailable_is_reported_error (port pid : Nat) :
    commands.start_tunnel none port (Except.ok pid)
      = (Except.error "Tunnel started but URL not available",
          some { child := pid, url := none },
          [OsEffect.spawn none "npx" ["localtunnel", "--port", toString port] []]) :=
  rfl

/-- Claim C4: `stop` on an empty slot (backend or tunnel) returns the
NotRunning error, leaves the slot empty, and issues no OS call — no process
is signalled, for any outcome the kill call would have had. -/
theorem c4_stop_on_empty_slot_rejected (k k2 : Except String Unit) :
    commands.stop_server none k = (Except.error "Server is not running", none, [])
    ∧ commands.stop_tunnel none k2 = (Except.error "Tunnel is not running", none, []) :=
  ⟨rfl, rfl⟩

/-- Strings with different component lists differ. -/
theorem ne_of_data_ne (s t : String) (h : s.data ≠ t.data) : s ≠ t :=
  fun he => h (congrArg String.data he)

/-- A list starting with a block that is not a prefix of `y` differs
from `y`. -/
theorem list_append_ne_of_not_pre {α : Type} (a x y : List α)
    (h : ¬ a <+: y) : a ++ x ≠ y :=
  fun he => h ⟨x, he⟩

/-- `server::find_project_root` has a single error message. -/
theorem find_project_root_error_msg (fs : Fs) (cwd exe : FPath) (e : String)
    (h : server.find_project_root fs cwd exe = Except.error e) :
    e = "Could not find project root (package.json)" := by
  rcases h10 : server.fprLoop fs 10 cwd with _ | p <;>
    rcases h5 : server.fprLoop fs 5 exe.dropLast with _ | q <;>
    simp [server.find_project_root, h10, h5] at h
  all_goals exact h.symm

/-- A successful `server::start` records the requested port in the
handle. -/
theorem server_start_ok_port (w : World) (sp : Except String Nat) (port : Nat)
    (hd : server.ServerHandle) (effs : List OsEffect)
    (h : server.start w sp port = (Except.ok hd, effs)) : hd.port = port := by
  unfold server.start server.start_dev_server server.start_production_server at h
  by_cases hdev : server.is_development_mode w.env <;>
    simp only [hdev, if_true, if_false, Bool.false_eq_true, reduceIte] at h
  · rcases hr : server.find_project_root w.fs w.cwd w.exe with e | root <;>
      rw [hr] at h <;> cases sp <;> simp_all
    all_goals rw [← h.1]
  · by_cases hex : w.fs (server.get_server_path w.fs w.exe) <;>
      cases sp <;> simp_all [server.find_node_executable]
    all_goals rw [← h.1]

/-- No error produced by `server::start` is the AlreadyRunning message. -/
theorem server_start_error_ne_already (w : World) (sp : Except String Nat)
    (port : Nat) (e : String) (effs : List OsEffect)
    (h : server.start w sp port = (Except.error e, effs)) :
    e ≠ "Server is already running" := by
  unfold server.start server.start_dev_server server.start_production_server at h
  by_cases hdev : server.is_development_mode w.env <;>
    simp only [hdev, if_true, if_false, Bool.false_eq_true, reduceIte] at h
  · rcases hr : server.find_project_root w.fs w.cwd w.exe with e0 | root <;>
      rw [hr] at h
    · have he0 := find_project_root_error_msg w.fs w.cwd w.exe e0 hr
      subst he0
      simp only [Prod.mk.injEq, Except.error.injEq] at h
      rw [← h.1]
      decide
    · cases sp with
      | error es =>
        simp only [Prod.mk.injEq, Except.error.injEq] at h
        rw [← h.1]
        apply ne_of_data_ne
        simp only [String.data_append, List.append_assoc]
        exact list_append_ne_of_not_pre _ _ _ (by decide)
      | ok pid => simp at h
  · by_cases hex : w.fs (server.get_server_path w.fs w.exe) <;>
      simp only [hex, if_true, if_false, Bool.false_eq_true, reduceIte,
        server.find_node_executable] at h
    · cases sp with
      | error es =>
        simp only [Prod.mk.injEq, Except.error.injEq] at h
        rw [← h.1]
        apply ne_of_data_ne
        simp only [String.data_append, List.append_assoc]
        exact list_append_ne_of_not_pre _ _ _ (by decide)
      | ok pid => simp at h
    · simp only [Prod.mk.injEq, Except.error.injEq] at h
      rw [← h.1]
      apply ne_of_data_ne
      simp only [String.data_append, List.append_assoc]
      exact list_append_ne_of_not_pre _ _ _ (by decide)

/-- `start_server` on an empty slot never reports AlreadyRunning. -/
theorem start_server_on_empty_ne_already (w : World) (sp : Except String Nat)
    (port : Nat) :
    (commands.start_server none w sp port).1
      ≠ Except.error "Server is already running" := by
  rcases hres : server.start w sp port with ⟨r, effs⟩
  cases r with
  | ok hd => simp [commands.start_server, hres]
  | error e =>
    have hne := server_start_error_ne_already w sp port e effs hres
    simp [commands.start_server, hres]
    exact hne

/-- `start_tunnel` on an empty slot never reports AlreadyRunning. -/
theorem start_tunnel_on_empty_ne_already (port : Nat) (sp : Except String Nat) :
    (commands.start_tunnel none port sp).1
      ≠ Except.error "Tunnel is already running" := by
  cases sp with
  | error e =>
    intro he
    simp [commands.start_tunnel, tunnel.start] at he
    exact ne_of_data_ne _ _ (by
      simp only [String.data_append, List.append_assoc]
      exact list_append_ne_of_not_pre _ _ _ (by decide)) he
  | ok pid =>
    intro he
    simp [commands.start_tunnel, tunnel.start, tunnel.get_url] at he

/-- Claim C5: a `start_server` call on the empty backend slot that returns
success produced exactly the confirmation string naming the requested port
(so the port, rendered in decimal, occurs in it), and left the slot so that
`get_server_status` reports `running = true` with that port; stopping then
succeeds and a status query afterwards reports `running = false`. -/
theorem c5_start_success_reports_port (w : World) (sp : Except String Nat)
    (port : Nat) (s : String)
    (hok : (commands.start_server none w sp port).1 = Except.ok s) :
    s = "Server started on port " ++ toString port
    ∧ (toString port).data <:+: s.data
    ∧ commands.get_server_status (commands.start_server none w sp port).2.1
        = Except.ok { running := true, port := port }
    ∧ (commands.stop_server (commands.start_server none w sp port).2.1
        (Except.ok ())).1 = Except.ok "Server stopped"
    ∧ commands.get_server_status
        (commands.stop_server (commands.start_server none w sp port).2.1
          (Except.ok ())).2.1
        = Except.ok { running := false, port := 8787 } := by
  rcases hres : server.start w sp port with ⟨r, effs⟩
  cases r with
  | error e =>
    have hcmd : commands.start_server none w sp port = (Except.error e, none, effs) := by
      simp [commands.start_server, hres]
    rw [hcmd] at hok
    simp at hok
  | ok hd =>
    have hcmd : commands.start_server none w sp port
        = (Except.ok ("Server started on port " ++ toString port), some hd, effs) := by
      simp [commands.start_server, hres]
    have hport : hd.port = port := server_start_ok_port w sp port hd effs hres
    rw [hcmd] at hok
    have hs : s = "Server started on port " ++ toString port :=
      (Except.ok.inj hok).symm
    rw [hcmd]
    refine ⟨hs, ?_, ?_, rfl, rfl⟩
    · rw [hs]
      exact List.IsSuffix.isInfix
        ⟨"Server started on port ".data, (String.data_append _ _).symm⟩
    · simp [commands.get_server_status, hport]

/-- Witness for C5: start on port 8787 with the bundled script present. -/
theorem c5_witness :
    (commands.start_server none worldProd (Except.ok 1) 8787).1
      = Except.ok "Server started on port 8787"
    ∧ ((toString 8787).data <:+: "Server started on port 8787".data
      ∧ commands.get_server_status
          (commands.start_server none worldProd (Except.ok 1) 8787).2.1
        = Except.ok { running := true, port := 8787 }) :=
  ⟨rfl,
    (c5_start_success_reports_port worldProd (Except.ok 1) 8787
      "Server started on port 8787" rfl).2.1,
    (c5_start_success_reports_port worldProd (Except.ok 1) 8787
      "Server started on port 8787" rfl).2.2.1⟩

/-- Claim C6: a `stop` whose kill call fails surfaces the failure to the
caller, yet the slot is cleared: status afterwards reports
`running = false`, and no subsequent `start` on the cleared slot can be
rejected with the AlreadyRunning error (whatever world, spawn outcome and
port it runs with).  Stated for both the backend and the tunnel slot. -/
theorem c6_stop_error_surfaced_and_slot_cleared
    (h : server.ServerHandle) (t : tunnel.TunnelHandle) (e e2 : String) :
    commands.stop_server (some h) (Except.error e)
      = (Except.error ("Failed to stop server: " ++ e), none, [OsEffect.kill h.child])
    ∧ commands.get_server_status
        (commands.stop_server (some h) (Except.error e)).2.1
        = Except.ok { running := false, port := 8787 }
    ∧ (∀ (w : World) (sp : Except String Nat) (port : Nat),
        (commands.start_server
          (commands.stop_server (some h) (Except.error e)).2.1 w sp port).1
          ≠ Except.error "Server is already running")
    ∧ commands.stop_tunnel (some t) (Except.error e2)
      = (Except.error ("Failed to stop tunnel: " ++ e2), none, [OsEffect.kill t.child])
    ∧ commands.get_tunnel_status
        (commands.stop_tunnel (some t) (Except.error e2)).2.1
        = Except.ok { running := false, url := none }
    ∧ (∀ (port : Nat) (sp : Except String Nat),
        (commands.start_tunnel
          (commands.stop_tunnel (some t) (Except.error e2)).2.1 port sp).1
          ≠ Except.error "Tunnel is already running") := by
  refine ⟨rfl, rfl, ?_, rfl, rfl, ?_⟩
  · intro w sp port
    exact start_server_on_empty_ne_already w sp port
  · intro port sp
    exact start_tunnel_on_empty_ne_already port sp

set_option maxRecDepth 8000 in
/-- Claim C7 counterexample: in production mode with no executable anywhere,
`start_server` fails with an error naming exactly one path — the fallback
`exe_dir/resources/server/index.js` — and the message does not mention the
development layout's marker (`package.json`) or any second attempted path,
so it does not list both attempted paths. -/
theorem c7_counterexample :
    (commands.start_server none worldNoExe (Except.ok 1) 8787).1
      = Except.error "Server executable not found at: C:/app/resources/server/index.js. Ensure resources are bundled correctly."
    ∧ ¬ ("package.json".data <:+:
        "Server executable not found at: C:/app/resources/server/index.js. Ensure resources are bundled correctly.".data) :=
  ⟨rfl, by decide⟩

/-- Claim C7 as amended: in production mode, when the resolved bundled
script does not exist, `start_server` fails with a NotFound error naming
only the single resolved fallback path; the slot remains empty and a status
query reports `running = false`. -/
theorem c7_not_found_names_single_fallback (w : World) (sp : Except String Nat)
    (port : Nat)
    (hdev : server.is_development_mode w.env = false)
    (hmiss : w.fs (server.get_server_path w.fs w.exe) = false) :
    commands.start_server none w sp port
      = (Except.error ("Server executable not found at: "
          ++ renderPath (server.get_server_path w.fs w.exe)
          ++ ". Ensure resources are bundled correctly."), none, [])
    ∧ commands.get_server_status (commands.start_server none w sp port).2.1
      = Except.ok { running := false, port := 8787 } := by
  have hstart : server.start w sp port
      = (Except.error ("Server executable not found at: "
          ++ renderPath (server.get_server_path w.fs w.exe)
          ++ ". Ensure resources are bundled correctly."), []) := by
    simp [server.start, hdev, server.start_production_server, hmiss]
  constructor
  · simp [commands.start_server, hstart]
  · simp [commands.start_server, hstart, commands.get_server_status]

/-- Witness for C7 (amended) in the concrete empty-filesystem world. -/
theorem c7_witness :
    server.is_development_mode worldNoExe.env = false
    ∧ worldNoExe.fs (server.get_server_path worldNoExe.fs worldNoExe.exe) = false
    ∧ (commands.start_server none worldNoExe (Except.ok 1) 8787
        = (Except.error ("Server executable not found at: "
            ++ renderPath (server.get_server_path worldNoExe.fs worldNoExe.exe)
            ++ ". Ensure resources are bundled correctly."), none, [])
      ∧ commands.get_server_status
          (commands.start_server none worldNoExe (Except.ok 1) 8787).2.1
        = Except.ok { running := false, port := 8787 }) :=
  ⟨rfl, rfl,
    c7_not_found_names_single_fallback worldNoExe (Except.ok 1) 8787 rfl rfl⟩

/-- Claim C8: launch-target resolution is deterministic — two filesystem
states that agree on every path give identical results for both the
production resolution (`get_server_path`) and the development resolution
(`find_project_root`), success or failure alike.  Both are pure functions
of the filesystem, executable path and working directory, so repeated calls
against an unchanged filesystem coincide. -/
theorem c8_resolution_deterministic (fs fs2 : Fs) (exe cwd : FPath)
    (hfs : ∀ p, fs p = fs2 p) :
    server.get_server_path fs exe = server.get_server_path fs2 exe
    ∧ server.find_project_root fs cwd exe = server.find_project_root fs2 cwd exe := by
  have hfe : fs = fs2 := funext hfs
  subst hfe
  exact ⟨rfl, rfl⟩

/-- Witness for C8 on two syntactically different but extensionally equal
filesystems. -/
theorem c8_witness :
    (∀ p, fsEmpty p = ((fun _ => false || false) : Fs) p)
    ∧ (server.get_server_path fsEmpty exePath0
        = server.get_server_path (fun _ => false || false) exePath0
      ∧ server.find_project_root fsEmpty [] exePath0
        = server.find_project_root (fun _ => false || false) [] exePath0) :=
  ⟨fun _ => rfl,
    c8_resolution_deterministic fsEmpty (fun _ => false || false) exePath0 []
      (fun _ => rfl)⟩

/-- Claim C9: the upward directory walks are bounded by the source's fixed
fuel (5 levels for `get_server_path`, 10 then 5 for `find_project_root`):
the instrumented walks compute the same results as the source's loops while
probing at most 15, 10 and 5 paths respectively — never scanning the whole
filesystem — and `find_project_root` always returns either a resolved path
or the NotFound error. -/
theorem c9_upward_walk_bounded (fs : Fs) (exe cwd : FPath) :
    (gspLoopProbes fs 5 exe.dropLast).1 = server.gspLoop fs 5 exe.dropLast
    ∧ (gspLoopProbes fs 5 exe.dropLast).2.length ≤ 15
    ∧ (fprLoopProbes fs 10 cwd).1 = server.fprLoop fs 10 cwd
    ∧ (fprLoopProbes fs 10 cwd).2.length ≤ 10
    ∧ (fprLoopProbes fs 5 exe.dropLast).1 = server.fprLoop fs 5 exe.dropLast
    ∧ (fprLoopProbes fs 5 exe.dropLast).2.length ≤ 5
    ∧ ((∃ p, server.find_project_root fs cwd exe = Except.ok p)
        ∨ server.find_project_root fs cwd exe
          = Except.error "Could not find project root (package.json)") := by
  refine ⟨gspLoopProbes_fst fs 5 exe.dropLast, ?_,
    fprLoopProbes_fst fs 10 cwd, fprLoopProbes_length fs 10 cwd,
    fprLoopProbes_fst fs 5 exe.dropLast, fprLoopProbes_length fs 5 exe.dropLast, ?_⟩
  · have hb := gspLoopProbes_length fs 5 exe.dropLast
    omega
  · rcases h10 : server.fprLoop fs 10 cwd with _ | p <;>
      rcases h5 : server.fprLoop fs 5 exe.dropLast with _ | q <;>
      simp [server.find_project_root, h10, h5]

/-- Claim C10: whenever `start_tunnel` returns the error
"Tunnel started but URL not available", the slot was populated before the
error was returned: a subsequent tunnel status query reports
`running = true` (URL unknown) and a subsequent `stop_tunnel` with a
successful kill returns the Stopped confirmation, not NotRunning. -/
theorem c10_url_error_still_populates_slot (st : Option tunnel.TunnelHandle)
    (port : Nat) (sp : Except String Nat)
    (hurl : (commands.start_tunnel st port sp).1
      = Except.error "Tunnel started but URL not available") :
    commands.get_tunnel_status (commands.start_tunnel st port sp).2.1
      = Except.ok { running := true, url := none }
    ∧ (commands.stop_tunnel (commands.start_tunnel st port sp).2.1
        (Except.ok ())).1 = Except.ok "Tunnel stopped" := by
  cases st with
  | some t =>
    simp [commands.start_tunnel] at hurl
  | none =>
    cases sp with
    | error e =>
      exfalso
      simp [commands.start_tunnel, tunnel.start] at hurl
      exact ne_of_data_ne _ _ (by
        simp only [String.data_append, List.append_assoc]
        exact list_append_ne_of_not_pre _ _ _ (by decide)) hurl
    | ok pid => exact ⟨rfl, rfl⟩

/-- Witness for C10 at a concrete successful spawn with no URL observed. -/
theorem c10_witness :
    (commands.start_tunnel none 4000 (Except.ok 9)).1
      = Except.error "Tunnel started but URL not available"
    ∧ (commands.get_tunnel_status
        (commands.start_tunnel none 4000 (Except.ok 9)).2.1
        = Except.ok { running := true, url := none }
      ∧ (commands.stop_tunnel (commands.start_tunnel none 4000 (Except.ok 9)).2.1
          (Except.ok ())).1 = Except.ok "Tunnel stopped") :=
  ⟨rfl, c10_url_error_still_populates_slot none 4000 (Except.ok 9) rfl⟩
